import Mathlib

set_option maxRecDepth 100000

/-!
# Verification of the ai-monitor-sdk alerting core

Shallow embedding of the alerting core of the `ai-monitor-sdk` repository:
the alert deduplicator (`AlertDeduplicator`), the plugin hook chain
(`PluginManager`), the health-probe state machine (`HealthProbeManager`),
the windowed metric aggregator (`MetricAggregator`) and the orchestrating
`AIMonitor.alert` entry point, together with proofs of the behavioural
claims made by the specification.

Conventions of the embedding:
* JavaScript numbers are modelled as `ℚ` (metric samples, thresholds) or
  `Int`/`Nat` (timestamps, counters) as appropriate; timestamps obtained
  from `Date.now()` are explicit `Int` parameters.
* JavaScript `Map`s and plain objects used as string-keyed records are
  modelled as association lists with in-place replacement on update,
  matching `Map.set` / object-spread semantics.
* `async` functions are modelled as pure functions; a promise rejection is
  an `Except.error` value.  Mutation is modelled by explicit state passing.
* Message strings embedding formatted numbers keep their static text;
  interpolated numeric values are carried verbatim via `toString`.
-/

/-- Alert severity levels (`AlertSeverity` in `types.ts`). -/
inductive Severity
  | INFO
  | WARNING
  | CRITICAL
deriving DecidableEq, Repr

/-- The string rendering of a severity, as used in template literals. -/
def Severity.str : Severity → String
  | .INFO => "INFO"
  | .WARNING => "WARNING"
  | .CRITICAL => "CRITICAL"

/-- Result of the optional AI enrichment provider (`ILogAnalysis`-like). -/
structure Analysis where
  summary : String
  rootCause : Option String
  suggestions : List String
  confidence : Option ℚ
deriving DecidableEq, Repr

/-- A value stored in an alert's open `metrics` record. -/
inductive MetricVal
  | num (q : ℚ)
  | str (s : String)
  | analysis (a : Analysis)
deriving DecidableEq, Repr

/-- Replace the value at `key` in an association list, keeping its position,
or append the binding when the key is absent (JS `Map.set` / object-spread
override semantics). -/
def setAssoc {β : Type} : List (String × β) → String → β → List (String × β)
  | [], key, v => [(key, v)]
  | (k, w) :: rest, key, v =>
    if k = key then (key, v) :: rest else (k, w) :: setAssoc rest key v

/-- Look up a key in an association list. -/
def getAssoc {β : Type} : List (String × β) → String → Option β
  | [], _ => none
  | (k, w) :: rest, key => if k = key then some w else getAssoc rest key

/-- The alert value type (`IAlert` in `types.ts`). -/
structure IAlert where
  severity : Severity
  title : String
  message : String
  metrics : Option (List (String × MetricVal)) := none
  timestamp : Option Int := none
deriving DecidableEq, Repr

namespace AlertDeduplicator

/-- One entry of the deduplicator's fingerprint map (`DedupEntry`). -/
structure DedupEntry where
  lastSent : Int
  count : Nat
deriving DecidableEq, Repr

/-- The deduplicator's state: the fingerprint map plus the configured
cooldown window (`AlertDeduplicator`'s fields). -/
structure DedupState where
  entries : List (String × DedupEntry)
  cooldownMs : Int
deriving DecidableEq, Repr

/-- A fresh deduplicator with the given cooldown (constructor). -/
def init (cooldownMs : Int) : DedupState := ⟨[], cooldownMs⟩

/-- `AlertDeduplicator.fingerprint`: identity of an alert for dedup
purposes, the string `severity::title`. -/
def fingerprint (a : IAlert) : String :=
  a.severity.str ++ "::" ++ a.title

/-- `AlertDeduplicator.shouldSend`: returns whether the alert should be
sent, together with the updated state (`now` is `Date.now()`). -/
def shouldSend (st : DedupState) (a : IAlert) (now : Int) : Bool × DedupState :=
  match getAssoc st.entries (fingerprint a) with
  | none =>
    (true, { st with entries := setAssoc st.entries (fingerprint a) ⟨now, 1⟩ })
  | some entry =>
    if now - entry.lastSent ≥ st.cooldownMs then
      (true,
        { st with entries := setAssoc st.entries (fingerprint a) ⟨now, entry.count + 1⟩ })
    else
      (false,
        { st with entries := setAssoc st.entries (fingerprint a) ⟨entry.lastSent, entry.count + 1⟩ })

/-- `AlertDeduplicator.suppressedCount`: sums `max(0, count - 1)` over all
entries (`Nat` subtraction is exactly `max (0 : ℤ) (count - 1)`). -/
def suppressedCount (st : DedupState) : Nat :=
  (st.entries.map (fun p => p.2.count - 1)).sum

/-- `AlertDeduplicator.reset`: clears all state. -/
def reset (st : DedupState) : DedupState := { st with entries := [] }

/-- Run `shouldSend` on the same alert at each time of the list in order,
keeping only the final state. -/
def shouldSendSeq (st : DedupState) (a : IAlert) : List Int → DedupState
  | [] => st
  | t :: ts => shouldSendSeq (shouldSend st a t).2 a ts

end AlertDeduplicator


/-- A plugin (`IPlugin`): a name plus optional hooks.  The `onInit`,
`onStart` and `onStop` lifecycle hooks carry no alert data and play no role
in the alert pipeline, so they are omitted; `onAlert` may rewrite the alert
(`some`) or suppress it (`none`, the null sentinel), `onBeforeNotify` may
veto notification by returning `false`. -/
structure Plugin where
  name : String
  onAlert : Option (IAlert → Option IAlert) := none
  onBeforeNotify : Option (IAlert → Bool) := none

namespace PluginManager

/-- The `onAlert` phase of `PluginManager.processAlert`: iterate the
plugins in registration order, threading the current alert; a `none`
return stops the iteration (the `if (!current) break` in the source). -/
def runOnAlert : List Plugin → IAlert → Option IAlert
  | [], a => some a
  | p :: ps, a =>
    match p.onAlert with
    | none => runOnAlert ps a
    | some f =>
      match f a with
      | none => none
      | some a' => runOnAlert ps a'

/-- The `onBeforeNotify` phase of `PluginManager.processAlert`: every
present hook must return `true`; the first `false` suppresses (the early
`return null` in the source). -/
def runBeforeNotify : List Plugin → IAlert → Bool
  | [], _ => true
  | p :: ps, a =>
    match p.onBeforeNotify with
    | none => runBeforeNotify ps a
    | some g => if g a then runBeforeNotify ps a else false

/-- `PluginManager.processAlert`: the two-phase pipeline; `none` means the
alert was suppressed by some plugin. -/
def processAlert (plugins : List Plugin) (a : IAlert) : Option IAlert :=
  match runOnAlert plugins a with
  | none => none
  | some a' => if runBeforeNotify plugins a' then some a' else none

end PluginManager

namespace HealthProbeManager

/-- The mutable per-probe state (`IProbeResult`; the `name` and `lastCheck`
bookkeeping fields are carried by the surrounding map / the clock and are
not part of the state machine). -/
structure ProbeResult where
  healthy : Bool
  consecutiveFailures : Nat
  lastError : Option String
  responseTimeMs : Option Int
deriving DecidableEq, Repr

/-- Initial state installed by `HealthProbeManager.start`: assumed healthy
until proven otherwise. -/
def initResult : ProbeResult := ⟨true, 0, none, none⟩

/-- Outcome of one underlying check (`{ healthy, message? }` as returned by
`checkHttp` / `checkTcp` / the custom check; a thrown error is a failing
outcome whose message is the error's message). -/
structure ProbeOutcome where
  healthy : Bool
  message : Option String
deriving DecidableEq, Repr

/-- The recovery alert emitted when a previously-down probe succeeds. -/
def recoveryAlert (name : String) (rt : Int) : IAlert :=
  { severity := .INFO
    title := "✅ " ++ name ++ " recovered"
    message := "Health probe '" ++ name ++ "' is back online (" ++ toString rt ++ "ms)"
    timestamp := some 0 }

/-- The failure alert emitted on a failing check (`n` is the updated
consecutive-failure count). -/
def failureAlert (name : String) (err : String) (rt : Int) (n : Nat) : IAlert :=
  { severity := if n ≥ 3 then .CRITICAL else .WARNING
    title := "🔴 " ++ name ++ " is down"
    message := "Health probe '" ++ name ++ "' failed: " ++ err ++ " ("
      ++ toString n ++ " consecutive failures)"
    metrics := some [("responseTimeMs", .num rt), ("consecutiveFailures", .num n)]
    timestamp := some 0 }

/-- One tick of `HealthProbeManager.runProbe` for a single probe, given the
outcome of its underlying check and the measured response time `rt`;
returns the updated state and the alerts handed to `alertFn` (timestamps,
which the source takes from the clock, are pinned to a nominal `0`). -/
def runProbe (name : String) (r : ProbeResult) (o : ProbeOutcome) (rt : Int) :
    ProbeResult × List IAlert :=
  if o.healthy then
    let alerts := if r.healthy then [] else [recoveryAlert name rt]
    (⟨true, 0, none, some rt⟩, alerts)
  else
    let n := r.consecutiveFailures + 1
    let err := o.message.getD "Check failed"
    (⟨false, n, some err, some rt⟩, [failureAlert name err rt n])

/-- Iterate `runProbe` over a list of check outcomes (each paired with its
response time), concatenating the emitted alerts in order. -/
def runProbeSeq (name : String) (r : ProbeResult) :
    List (ProbeOutcome × Int) → ProbeResult × List IAlert
  | [] => (r, [])
  | (o, rt) :: rest =>
    let step := runProbe name r o rt
    let next := runProbeSeq name step.1 rest
    (next.1, step.2 ++ next.2)

end HealthProbeManager


namespace MetricAggregator

/-- Response-time and error-rate thresholds (the slice of `IThresholds`
that `aggregateAndAlert` reads; warning/critical pairs). -/
structure Thresholds where
  rtWarning : ℚ
  rtCritical : ℚ
  erWarning : ℚ
  erCritical : ℚ

/-- The `DEFAULT_THRESHOLDS` of the source: 200ms/500ms response time,
0.1%/1.0% error rate. -/
def defaultThresholds : Thresholds :=
  ⟨200, 500, 1/10, 1⟩

/-- The aggregator's sliding window: recorded durations plus request and
error counters. -/
structure AggState where
  responseTimes : List ℚ
  requestCount : Nat
  errorCount : Nat
deriving DecidableEq, Repr

/-- The empty window (initial state, and the state after a reset). -/
def emptyWindow : AggState := ⟨[], 0, 0⟩

/-- `MetricAggregator.recordRequest`: push the duration and bump the
counters. -/
def recordRequest (st : AggState) (duration : ℚ) (isError : Bool) : AggState :=
  ⟨st.responseTimes ++ [duration], st.requestCount + 1,
    st.errorCount + if isError then 1 else 0⟩

/-- Record a whole list of `(duration, isError)` samples in order. -/
def recordMany (st : AggState) (samples : List (ℚ × Bool)) : AggState :=
  samples.foldl (fun s p => recordRequest s p.1 p.2) st

/-- Ascending numeric sort (the `sort((a, b) => a - b)` of the source). -/
def sortAsc (l : List ℚ) : List ℚ := l.insertionSort (· ≤ ·)

/-- The P95 index: `Math.floor(count * 0.95)`, i.e. `⌊count * 95 / 100⌋`. -/
def p95Index (count : Nat) : Nat := count * 95 / 100

/-- The critical/warning latency alerts of `aggregateAndAlert` (step 3). -/
def latencyAlerts (th : Thresholds) (p95 : ℚ) : List IAlert :=
  if p95 > th.rtCritical then
    [{ severity := .CRITICAL, title := "Critical Latency (P95)"
       message := "P95 Response time is " ++ toString p95.num ++ "ms (Critical > "
         ++ toString th.rtCritical.num ++ "ms)"
       metrics := some [("p95", .num p95), ("threshold", .num th.rtCritical),
         ("action", .str "Optimize queries")] }]
  else if p95 > th.rtWarning then
    [{ severity := .WARNING, title := "High Latency (P95)"
       message := "P95 Response time is " ++ toString p95.num ++ "ms (Warning > "
         ++ toString th.rtWarning.num ++ "ms)"
       metrics := some [("p95", .num p95), ("threshold", .num th.rtWarning),
         ("action", .str "Optimize queries")] }]
  else []

/-- The critical/warning error-rate alerts of `aggregateAndAlert`
(step 4). -/
def errorRateAlerts (th : Thresholds) (errorRate : ℚ) : List IAlert :=
  if errorRate > th.erCritical then
    [{ severity := .CRITICAL, title := "Critical Error Rate"
       message := "Error rate exceeds the critical threshold"
       metrics := some [("errorRate", .num errorRate), ("threshold", .num th.erCritical),
         ("action", .str "Investigate errors")] }]
  else if errorRate > th.erWarning then
    [{ severity := .WARNING, title := "Elevated Error Rate"
       message := "Error rate exceeds the warning threshold"
       metrics := some [("errorRate", .num errorRate), ("threshold", .num th.erWarning),
         ("action", .str "Investigate errors")] }]
  else []

/-- `MetricAggregator.aggregateAndAlert`: no-op on an empty window;
otherwise compute P95 over the ascending-sorted samples and the error-rate
percentage, emit the threshold alerts (latency first, then error rate,
each a critical-first `else if` chain), and reset the window
unconditionally.  Returns the new window and the alerts passed to
`monitor.alert`. -/
def aggregateAndAlert (th : Thresholds) (st : AggState) : AggState × List IAlert :=
  if st.responseTimes.isEmpty then (st, [])
  else
    let sorted := sortAsc st.responseTimes
    let p95 := sorted.getD (p95Index sorted.length) 0
    let errorRate : ℚ := (st.errorCount : ℚ) / (st.requestCount : ℚ) * 100
    (emptyWindow, latencyAlerts th p95 ++ errorRateAlerts th errorRate)

end MetricAggregator


/-- A configured notifier: its name plus the behaviour of its `sendAlert`
call on a given alert (`Except.error` models a promise rejection). -/
structure Notifier where
  name : String
  send : IAlert → Except String Unit

/-- Observable log events of the orchestrator relevant to the pipeline
(debug/info logging of the happy path is omitted). -/
inductive LogEvent
  | disabled
  | deduplicated (severity : Severity) (title : String)
  | enrichFailed (err : String)
  | suppressedByPlugin (severity : Severity) (title : String)
  | noNotifiers
  | notifierFailed (index : Nat) (err : String)
deriving DecidableEq, Repr

namespace AIMonitor

open AlertDeduplicator PluginManager

/-- The monitor state read by `AIMonitor.alert`: the `enabled` flag, the
optional deduplicator, the optional AI enrichment provider
(`aiService` present with `enableAIEnhancedAlerts`; rejection is
`Except.error`), the registered plugins in registration order, and the
configured notifiers. -/
structure MonitorState where
  enabled : Bool
  dedup : Option DedupState
  enrich : Option (IAlert → Except String Analysis)
  plugins : List Plugin
  notifiers : List Notifier

/-- Timestamp defaulting: `{ ...alert, timestamp: alert.timestamp || new Date() }`. -/
def stampTime (a : IAlert) (now : Int) : IAlert :=
  { a with timestamp := match a.timestamp with | some t => some t | none => some now }

/-- The formatted enrichment block appended to the alert message on a
successful AI analysis. -/
def enrichmentBlock (an : Analysis) : String :=
  "\n\n🤖 AI Analysis:\n" ++ an.summary
    ++ (match an.rootCause with
        | some rc => "\n\n**Root Cause:** " ++ rc
        | none => "")
    ++ (if an.suggestions.isEmpty then ""
        else "\n\n**Suggestions:**\n"
          ++ String.intercalate "\n" (an.suggestions.map (fun s => "• " ++ s)))

/-- The AI enrichment step of `AIMonitor.alert`: when a provider is
configured, a successful analysis is appended to the message and stored
under `metrics.aiAnalysis`; a failure is caught, logged, and the original
alert is kept. -/
def enrichStage (enrich : Option (IAlert → Except String Analysis)) (a : IAlert) :
    IAlert × List LogEvent :=
  match enrich with
  | none => (a, [])
  | some f =>
    match f a with
    | .ok an =>
      ({ a with
          message := a.message ++ enrichmentBlock an
          metrics := some (setAssoc (a.metrics.getD []) "aiAnalysis" (.analysis an)) }, [])
    | .error e => (a, [.enrichFailed e])

/-- `AIMonitor.notifyAll`: warn when no notifier is configured, otherwise
invoke every notifier (`Promise.allSettled`) and log each rejection by its
index; returns each notifier's `(name, outcome)` in order. -/
def notifyAll (notifiers : List Notifier) (a : IAlert) :
    List (String × Except String Unit) × List LogEvent :=
  if notifiers.isEmpty then ([], [.noNotifiers])
  else
    let results := notifiers.map (fun n => (n.name, n.send a))
    (results,
      results.enum.filterMap (fun p =>
        match p.2.2 with
        | .error e => some (.notifierFailed p.1 e)
        | .ok _ => none))

/-- Timestamp re-defaulting after the plugin phase:
`{ ...processed, timestamp: processed.timestamp || enhancedAlert.timestamp }`. -/
def withFallbackTimestamp (processed : IAlert) (fallback : Option Int) : IAlert :=
  { processed with
      timestamp := match processed.timestamp with | some t => some t | none => fallback }

/-- The tail of `AIMonitor.alert` after the enabled and dedup gates:
timestamp stamping, enrichment, the plugin pipeline, and notifier fan-out.
Returns the notifier calls made and the log events. -/
def alertAfterDedup (m : MonitorState) (a : IAlert) (now : Int) :
    List (String × Except String Unit) × List LogEvent :=
  match processAlert m.plugins (enrichStage m.enrich (stampTime a now)).1 with
  | none =>
    ([], (enrichStage m.enrich (stampTime a now)).2
      ++ [.suppressedByPlugin a.severity a.title])
  | some processed =>
    ((notifyAll m.notifiers
        (withFallbackTimestamp processed (enrichStage m.enrich (stampTime a now)).1.timestamp)).1,
      (enrichStage m.enrich (stampTime a now)).2
        ++ (notifyAll m.notifiers
            (withFallbackTimestamp processed
              (enrichStage m.enrich (stampTime a now)).1.timestamp)).2)

/-- `AIMonitor.alert`: the orchestrator entry point.  Returns the updated
monitor state, the notifier calls made (name and outcome, in notifier
order), and the log events. -/
def alert (m : MonitorState) (a : IAlert) (now : Int) :
    MonitorState × List (String × Except String Unit) × List LogEvent :=
  if !m.enabled then (m, [], [.disabled])
  else
    match m.dedup with
    | none => (m, alertAfterDedup m a now)
    | some d =>
      let r := shouldSend d a now
      let m' := { m with dedup := some r.2 }
      if !r.1 then (m', [], [.deduplicated a.severity a.title])
      else (m', alertAfterDedup m' a now)

end AIMonitor

/-! ## Claim predicates -/

namespace AlertDeduplicator

/-- The per-call contract of `shouldSend` claimed by the specification:
`true` exactly when the fingerprint is absent or the cooldown has elapsed
since `lastSent`; a `true` call re-records `lastSent = now`; a `false`
call only bumps the entry's counter, leaving `lastSent` untouched. -/
def shouldSendSpec (st : DedupState) (a : IAlert) (now : Int) : Prop :=
  ((shouldSend st a now).1 = true ↔
    (getAssoc st.entries (fingerprint a) = none ∨
      ∃ e : DedupEntry, getAssoc st.entries (fingerprint a) = some e ∧
        now - e.lastSent ≥ st.cooldownMs))
  ∧ ((shouldSend st a now).1 = true →
      ∃ c : Nat, getAssoc (shouldSend st a now).2.entries (fingerprint a) = some ⟨now, c⟩)
  ∧ (∀ e : DedupEntry, getAssoc st.entries (fingerprint a) = some e →
      (shouldSend st a now).1 = false →
      (shouldSend st a now).2.entries
          = setAssoc st.entries (fingerprint a) ⟨e.lastSent, e.count + 1⟩
        ∧ getAssoc (shouldSend st a now).2.entries (fingerprint a)
          = some ⟨e.lastSent, e.count + 1⟩)

/-- Two identical alerts within the cooldown window: the first passes, the
second is suppressed, and one past the window passes again. -/
def dedupScenario (cd t1 t2 t3 : Int) (a : IAlert) : Prop :=
  (shouldSend (init cd) a t1).1 = true
  ∧ (shouldSend (shouldSend (init cd) a t1).2 a t2).1 = false
  ∧ (shouldSend (shouldSend (shouldSend (init cd) a t1).2 a t2).2 a t3).1 = true

end AlertDeduplicator

namespace HealthProbeManager

/-- Contract of a succeeding check: the failure counter resets to 0, the
probe is healthy, and exactly one INFO recovery alert is emitted when the
probe was previously down — none when it was healthy. -/
def successStepSpec (name : String) (r : ProbeResult) (o : ProbeOutcome) (rt : Int) : Prop :=
  (runProbe name r o rt).1.consecutiveFailures = 0
  ∧ (runProbe name r o rt).1.healthy = true
  ∧ (runProbe name r o rt).2 = (if r.healthy then [] else [recoveryAlert name rt])
  ∧ (r.healthy = false → (runProbe name r o rt).2.map IAlert.severity = [.INFO])
  ∧ (r.healthy = true → (runProbe name r o rt).2 = [])

/-- Contract of a failing check: the failure counter is incremented and
exactly one alert is emitted, CRITICAL once the updated counter reaches 3
and WARNING below that. -/
def failureStepSpec (name : String) (r : ProbeResult) (o : ProbeOutcome) (rt : Int) : Prop :=
  (runProbe name r o rt).1.consecutiveFailures = r.consecutiveFailures + 1
  ∧ (runProbe name r o rt).1.healthy = false
  ∧ (runProbe name r o rt).2.map IAlert.severity
      = [if r.consecutiveFailures + 1 ≥ 3 then .CRITICAL else .WARNING]

/-- Four consecutive failures from the healthy initial state followed by
one success emit WARNING, WARNING, CRITICAL, CRITICAL, INFO, and the final
state is healthy with the counter reset to 0. -/
def probeRunScenario : Prop :=
  ((runProbeSeq "db" initResult
    [(⟨false, some "boom"⟩, 5), (⟨false, some "boom"⟩, 5), (⟨false, some "boom"⟩, 5),
     (⟨false, some "boom"⟩, 5), (⟨true, none⟩, 5)]).2.map IAlert.severity)
    = [.WARNING, .WARNING, .CRITICAL, .CRITICAL, .INFO]
  ∧ (runProbeSeq "db" initResult
    [(⟨false, some "boom"⟩, 5), (⟨false, some "boom"⟩, 5), (⟨false, some "boom"⟩, 5),
     (⟨false, some "boom"⟩, 5), (⟨true, none⟩, 5)]).1.consecutiveFailures = 0
  ∧ (runProbeSeq "db" initResult
    [(⟨false, some "boom"⟩, 5), (⟨false, some "boom"⟩, 5), (⟨false, some "boom"⟩, 5),
     (⟨false, some "boom"⟩, 5), (⟨true, none⟩, 5)]).1.healthy = true

end HealthProbeManager

namespace MetricAggregator

/-- The C3 scenario window: 19 samples of 50ms and one of 600ms, no
errors. -/
def sample20 : List (ℚ × Bool) :=
  List.replicate 19 ((50 : ℚ), false) ++ [((600 : ℚ), false)]

/-- The window state after recording `sample20`. -/
def st20 : AggState := recordMany emptyWindow sample20

/-- The C4 scenario window: 100 samples of 50ms, 5 of them errors. -/
def sample100 : List (ℚ × Bool) :=
  List.replicate 95 ((50 : ℚ), false) ++ List.replicate 5 ((50 : ℚ), true)

/-- The window state after recording `sample100`. -/
def st100 : AggState := recordMany emptyWindow sample100

/-- C3's concrete scenario: on the 19×50ms/1×600ms window with default
thresholds, P95 is 600, exactly one CRITICAL latency alert fires, the
window resets, and a following cycle on the empty window emits nothing. -/
def latencyScenario : Prop :=
  (sortAsc st20.responseTimes).getD (p95Index st20.responseTimes.length) 0 = 600
  ∧ (aggregateAndAlert defaultThresholds st20).2.map (fun al => (al.severity, al.title))
      = [(Severity.CRITICAL, "Critical Latency (P95)")]
  ∧ (aggregateAndAlert defaultThresholds st20).1 = emptyWindow
  ∧ aggregateAndAlert defaultThresholds emptyWindow = (emptyWindow, [])

/-- C4's concrete scenario: on the 100-sample window with 5 errors and
default thresholds, the error rate is 5% and exactly one CRITICAL
error-rate alert fires. -/
def errorRateScenario : Prop :=
  ((st100.errorCount : ℚ) / (st100.requestCount : ℚ) * 100) = 5
  ∧ (aggregateAndAlert defaultThresholds st100).2.map (fun al => (al.severity, al.title))
      = [(Severity.CRITICAL, "Critical Error Rate")]

/-- Severity selection of the latency chain: CRITICAL when above the
critical threshold, else WARNING when above the warning threshold, else
nothing. -/
def latencySelectionSpec (th : Thresholds) (q : ℚ) : Prop :=
  (q > th.rtCritical → (latencyAlerts th q).map IAlert.severity = [.CRITICAL])
  ∧ (¬ q > th.rtCritical → q > th.rtWarning →
      (latencyAlerts th q).map IAlert.severity = [.WARNING])
  ∧ (¬ q > th.rtCritical → ¬ q > th.rtWarning → latencyAlerts th q = [])

/-- Severity selection of the error-rate chain, independent of the latency
chain. -/
def errorRateSelectionSpec (th : Thresholds) (q : ℚ) : Prop :=
  (q > th.erCritical → (errorRateAlerts th q).map IAlert.severity = [.CRITICAL])
  ∧ (¬ q > th.erCritical → q > th.erWarning →
      (errorRateAlerts th q).map IAlert.severity = [.WARNING])
  ∧ (¬ q > th.erCritical → ¬ q > th.erWarning → errorRateAlerts th q = [])

/-- `sortAsc` really is an ascending sort: its output is `≤`-sorted and a
permutation of its input. -/
def sortSpec (l : List ℚ) : Prop :=
  List.Sorted (· ≤ ·) (sortAsc l) ∧ (sortAsc l).Perm l

end MetricAggregator



/-- A plugin whose `onAlert` appends a suffix to the alert title. -/
def suffixPlugin (nm suffix : String) : Plugin :=
  { name := nm, onAlert := some (fun al => some { al with title := al.title ++ suffix }) }

/-- A plugin whose `onAlert` returns the null sentinel for every alert. -/
def nullPlugin (nm : String) : Plugin :=
  { name := nm, onAlert := some (fun _ => none) }

/-- A plugin with both hooks: `onAlert` appends a suffix, `onBeforeNotify`
returns a fixed verdict. -/
def fullPlugin (nm suffix : String) (verdict : Bool) : Plugin :=
  { name := nm
    onAlert := some (fun al => some { al with title := al.title ++ suffix })
    onBeforeNotify := some (fun _ => verdict) }

/-- A notifier whose `sendAlert` always rejects. -/
def failNotifier : Notifier := ⟨"fail", fun _ => .error "boom"⟩

/-- A notifier whose `sendAlert` always resolves. -/
def okNotifier : Notifier := ⟨"ok", fun _ => .ok ()⟩

/-- A test alert used by the concrete scenarios. -/
def testAlert : IAlert := ⟨.WARNING, "Test", "m", none, none⟩

namespace PluginManager

/-- The C5 two-plugin scenario: suffix plugins `-p1` then `-p2` rewrite the
title "Test" to "Test-p1-p2". -/
def suffixScenario : Prop :=
  processAlert [suffixPlugin "p1" "-p1", suffixPlugin "p2" "-p2"] testAlert
    = some { testAlert with title := "Test-p1-p2" }

end PluginManager

namespace AIMonitor

open AlertDeduplicator PluginManager

/-- C6's dedup half: when the deduplicator suppresses the alert, no
notifier is called and only the dedup log event is produced. -/
def dedupSuppressionSpec (m : MonitorState) (a : IAlert) (now : Int) : Prop :=
  ∀ d : DedupState, m.dedup = some d → (shouldSend d a now).1 = false →
    (alert m a now).2.1 = [] ∧ (alert m a now).2.2 = [.deduplicated a.severity a.title]

/-- C6's plugin half: when the plugin pipeline suppresses the alert, no
notifier is called. -/
def pluginSuppressionSpec (m : MonitorState) (a : IAlert) (now : Int) : Prop :=
  processAlert m.plugins (enrichStage m.enrich (stampTime a now)).1 = none →
    (alert m a now).2.1 = []

/-- C6's short-circuit property: after an `onAlert` hook returns the null
sentinel, the result is suppression and the hooks of the later plugins are
never consulted (the outcome is the same for any tail). -/
def onAlertShortCircuitSpec : Prop :=
  ∀ (p : Plugin) (f : IAlert → Option IAlert) (ps ps' : List Plugin) (x : IAlert),
    p.onAlert = some f → f x = none →
      runOnAlert (p :: ps) x = none ∧ runOnAlert (p :: ps) x = runOnAlert (p :: ps') x

/-- C7's orchestrator half: the notifier calls made by `alert` are exactly
one call per configured notifier, in order. -/
def notifierFanoutSpec (m : MonitorState) (a : IAlert) (now : Int) : Prop :=
  (alert m a now).2.1.map Prod.fst = m.notifiers.map Notifier.name

/-- C9's success half: a successful enrichment appends the formatted block
to the message and stores the raw analysis under `metrics.aiAnalysis`, and
(with no plugin interfering) exactly that enriched alert is what every
notifier receives. -/
def enrichSuccessSpec (m : MonitorState) (a : IAlert) (now : Int) (an : Analysis) : Prop :=
  (enrichStage m.enrich (stampTime a now)).1.message
      = (stampTime a now).message ++ enrichmentBlock an
  ∧ getAssoc ((enrichStage m.enrich (stampTime a now)).1.metrics.getD []) "aiAnalysis"
      = some (.analysis an)
  ∧ (m.plugins = [] →
      (alert m a now).2.1
        = m.notifiers.map (fun n => (n.name, n.send (enrichStage m.enrich (stampTime a now)).1)))

/-- C9's failure half: a failing enrichment is caught and logged, and the
pipeline proceeds exactly as it would with no provider configured — same
notifier calls, same monitor state, the logs only gaining the failure
event. -/
def enrichFailureSpec (m : MonitorState) (a : IAlert) (now : Int) (e : String) : Prop :=
  (alert m a now).2.1 = (alert { m with enrich := none } a now).2.1
  ∧ (alert m a now).2.2 = .enrichFailed e :: (alert { m with enrich := none } a now).2.2
  ∧ (alert m a now).1 = m

end AIMonitor


/-! ## General lemmas about association lists -/

theorem getAssoc_setAssoc_self {β : Type} (l : List (String × β)) (k : String) (v : β) :
    getAssoc (setAssoc l k v) k = some v := by
  induction l with
  | nil => simp [setAssoc, getAssoc]
  | cons p rest ih =>
    obtain ⟨pk, pv⟩ := p
    by_cases h : pk = k
    · simp [setAssoc, h, getAssoc]
    · simp [setAssoc, h, getAssoc, ih]

/-! ## Claims about the deduplicator -/

namespace AlertDeduplicator


theorem shouldSend_of_none {st : DedupState} {a : IAlert} (now : Int)
    (h : getAssoc st.entries (fingerprint a) = none) :
    shouldSend st a now
      = (true, { st with entries := setAssoc st.entries (fingerprint a) ⟨now, 1⟩ }) := by
  unfold shouldSend
  rw [h]

theorem shouldSend_of_elapsed {st : DedupState} {a : IAlert} {e : DedupEntry} (now : Int)
    (h : getAssoc st.entries (fingerprint a) = some e)
    (hc : now - e.lastSent ≥ st.cooldownMs) :
    shouldSend st a now
      = (true, { st with entries := setAssoc st.entries (fingerprint a) ⟨now, e.count + 1⟩ }) := by
  unfold shouldSend
  rw [h]
  simp [hc]

theorem shouldSend_of_cooldown {st : DedupState} {a : IAlert} {e : DedupEntry} (now : Int)
    (h : getAssoc st.entries (fingerprint a) = some e)
    (hc : ¬ now - e.lastSent ≥ st.cooldownMs) :
    shouldSend st a now
      = (false,
          { st with entries := setAssoc st.entries (fingerprint a) ⟨e.lastSent, e.count + 1⟩ }) := by
  unfold shouldSend
  rw [h]
  simp [hc]

theorem shouldSendSpec_holds (st : DedupState) (a : IAlert) (now : Int) :
    shouldSendSpec st a now := by
  unfold shouldSendSpec
  cases h : getAssoc st.entries (fingerprint a) with
  | none =>
    rw [shouldSend_of_none now h]
    refine ⟨by simp [h], ?_, ?_⟩
    · intro _
      exact ⟨1, by simp [getAssoc_setAssoc_self]⟩
    · intro e he
      simp [h] at he
  | some e =>
    by_cases hc : now - e.lastSent ≥ st.cooldownMs
    · rw [shouldSend_of_elapsed now h hc]
      refine ⟨?_, ?_, ?_⟩
      · simp only [true_iff]
        exact Or.inr ⟨e, rfl, hc⟩
      · intro _
        exact ⟨e.count + 1, by simp [getAssoc_setAssoc_self]⟩
      · intro e' _ hfalse
        simp at hfalse
    · rw [shouldSend_of_cooldown now h hc]
      refine ⟨?_, ?_, ?_⟩
      · constructor
        · intro htrue
          simp at htrue
        · rintro (hnone | ⟨e', he', hc'⟩)
          · simp at hnone
          · rw [Option.some_inj] at he'
            exact absurd (he' ▸ hc') hc
      · intro htrue
        simp at htrue
      · intro e' he' _
        have he : e' = e := by
          rw [Option.some_inj] at he'
          exact he'.symm
        subst he
        exact ⟨rfl, by simp [getAssoc_setAssoc_self]⟩

theorem dedupScenario_holds (cd t1 t2 t3 : Int) (a : IAlert)
    (h2 : t2 - t1 < cd) (h3 : t3 - t1 ≥ cd) :
    dedupScenario cd t1 t2 t3 a := by
  have hc2 : ¬ t2 - t1 ≥ cd := by omega
  unfold dedupScenario init
  simp [shouldSend, getAssoc, setAssoc, hc2, h3]

/-- C1: `shouldSend` returns true exactly when the fingerprint is new or
the cooldown has elapsed, recording `lastSentAt = now` in that case and
otherwise leaving `lastSentAt` untouched; two identical alerts within the
cooldown yield true then false, and a further identical alert after the
cooldown has elapsed yields true again. -/
theorem C1_dedup_cooldown (st : DedupState) (a a' : IAlert) (now cd t1 t2 t3 : Int)
    (h2 : t2 - t1 < cd) (h3 : t3 - t1 ≥ cd) :
    shouldSendSpec st a now ∧ dedupScenario cd t1 t2 t3 a' :=
  ⟨shouldSendSpec_holds st a now, dedupScenario_holds cd t1 t2 t3 a' h2 h3⟩

/-- Witness for C1 at concrete inputs: cooldown 1000, calls at times 0,
500 (suppressed) and 1200 (past the window). -/
theorem C1_dedup_cooldown_witness :
    ((500 : Int) - 0 < 1000 ∧ (1200 : Int) - 0 ≥ 1000)
    ∧ shouldSendSpec (init 1000) ⟨.CRITICAL, "DB Down", "m", none, none⟩ 7
    ∧ dedupScenario 1000 0 500 1200 ⟨.CRITICAL, "DB Down", "m", none, none⟩ :=
  ⟨⟨by decide, by decide⟩,
    C1_dedup_cooldown (init 1000) ⟨.CRITICAL, "DB Down", "m", none, none⟩
      ⟨.CRITICAL, "DB Down", "m", none, none⟩ 7 1000 0 500 1200 (by decide) (by decide)⟩

/-- Alerts with the same severity and title have the same fingerprint,
whatever their message, metrics and timestamp. -/
theorem fingerprint_eq_of_severity_title {a1 a2 : IAlert}
    (hs : a1.severity = a2.severity) (ht : a1.title = a2.title) :
    fingerprint a1 = fingerprint a2 := by
  unfold fingerprint
  rw [hs, ht]

/-- Repeatedly suppressed calls on a single-entry state only bump the
counter: the entry's `lastSent` stays at `t1`. -/
theorem shouldSendSeq_suppressed (cd t1 : Int) (a : IAlert) (c : Nat) (ts : List Int)
    (h : ∀ t ∈ ts, t - t1 < cd) :
    shouldSendSeq ⟨[(fingerprint a, ⟨t1, c⟩)], cd⟩ a ts
      = ⟨[(fingerprint a, ⟨t1, c + ts.length⟩)], cd⟩ := by
  induction ts generalizing c with
  | nil => simp [shouldSendSeq]
  | cons t ts ih =>
    have hc : ¬ t - t1 ≥ cd := by
      have := h t (by simp)
      omega
    have hstep :
        shouldSend ⟨[(fingerprint a, ⟨t1, c⟩)], cd⟩ a t
          = (false, ⟨[(fingerprint a, ⟨t1, c + 1⟩)], cd⟩) := by
      rw [shouldSend_of_cooldown (e := ⟨t1, c⟩) t (by simp [getAssoc]) (by simpa using hc)]
      simp [setAssoc]
    rw [shouldSendSeq, hstep]
    have hrest := ih (c + 1) (fun u hu => h u (by simp [hu]))
    simp only [hrest]
    have : c + 1 + ts.length = c + (t :: ts).length := by
      simp
      omega
    rw [this]

/-- C8: deduplication identity is exactly `(severity, title)` — a second
alert with the same severity and title but arbitrary other fields is
suppressed within the cooldown — and after `n = ts.length + 1` identical
calls all within one window of the first, `suppressedCount` is `n - 1`. -/
theorem C8_fingerprint_identity_suppressedCount :
    (∀ (cd t1 t2 : Int) (a1 a2 : IAlert),
      a1.severity = a2.severity → a1.title = a2.title → t2 - t1 < cd →
      (shouldSend (shouldSend (init cd) a1 t1).2 a2 t2).1 = false)
    ∧ (∀ (cd t1 : Int) (a : IAlert) (ts : List Int),
      (∀ t ∈ ts, t - t1 < cd) →
      suppressedCount (shouldSendSeq (init cd) a (t1 :: ts)) = ts.length) := by
  constructor
  · intro cd t1 t2 a1 a2 hs ht h2
    have h1 : (shouldSend (init cd) a1 t1).2 = ⟨[(fingerprint a1, ⟨t1, 1⟩)], cd⟩ := by
      rw [shouldSend_of_none t1 (by simp [init, getAssoc])]
      simp [init, setAssoc]
    rw [h1, shouldSend_of_cooldown (e := ⟨t1, 1⟩) t2
      (by simp [getAssoc, fingerprint_eq_of_severity_title hs ht])
      (by simpa using (by omega : ¬ t2 - t1 ≥ cd))]
  · intro cd t1 a ts h
    have h1 : (shouldSend (init cd) a t1).2 = ⟨[(fingerprint a, ⟨t1, 1⟩)], cd⟩ := by
      rw [shouldSend_of_none t1 (by simp [init, getAssoc])]
      simp [init, setAssoc]
    rw [shouldSendSeq, h1, shouldSendSeq_suppressed cd t1 a 1 ts h]
    simp [suppressedCount]

/-- Witness for C8: severity/title-equal alerts with different messages and
metrics collide (cooldown 1000, times 0 and 500), and four identical calls
within one window leave `suppressedCount = 3`. -/
theorem C8_fingerprint_identity_suppressedCount_witness :
    ((shouldSend (shouldSend (init 1000) ⟨.WARNING, "T", "m1", none, none⟩ 0).2
        ⟨.WARNING, "T", "m2", some [("k", .num 1)], none⟩ 500).1 = false)
    ∧ suppressedCount
        (shouldSendSeq (init 1000) ⟨.WARNING, "T", "m1", none, none⟩ [0, 100, 200, 300]) = 3 :=
  ⟨C8_fingerprint_identity_suppressedCount.1 1000 0 500
      ⟨.WARNING, "T", "m1", none, none⟩ ⟨.WARNING, "T", "m2", some [("k", .num 1)], none⟩
      rfl rfl (by decide),
    C8_fingerprint_identity_suppressedCount.2 1000 0
      ⟨.WARNING, "T", "m1", none, none⟩ [100, 200, 300] (by decide)⟩

end AlertDeduplicator

/-! ## Claims about the health-probe state machine -/

namespace HealthProbeManager


/-- C2: with the hard-coded critical threshold 3 (the default
`consecutiveFailuresForCritical`), every failing check increments the
counter and emits one WARNING/CRITICAL alert (CRITICAL exactly when the
updated counter is ≥ 3), every succeeding check resets the counter and
emits exactly one INFO recovery alert when the probe was down and none
when it was healthy; a run of four failures from healthy then a success
emits WARNING, WARNING, CRITICAL, CRITICAL, INFO. -/
theorem C2_probe_state_machine (name : String) (r : ProbeResult) (o : ProbeOutcome) (rt : Int)
    (hsucc : o.healthy = true) (r' : ProbeResult) (o' : ProbeOutcome)
    (hfail : o'.healthy = false) :
    successStepSpec name r o rt ∧ failureStepSpec name r' o' rt ∧ probeRunScenario := by
  refine ⟨?_, ?_, ?_⟩
  · unfold successStepSpec runProbe
    rw [hsucc]
    refine ⟨rfl, rfl, rfl, ?_, ?_⟩
    · intro hr
      simp [hr, recoveryAlert]
    · intro hr
      simp [hr]
  · unfold failureStepSpec runProbe
    rw [hfail]
    refine ⟨rfl, rfl, ?_⟩
    simp [failureAlert]
  · unfold probeRunScenario
    refine ⟨by decide, by decide, by decide⟩

/-- Witness for C2 at a concrete succeeding outcome, a concrete failing
outcome, and the concrete five-check run. -/
theorem C2_probe_state_machine_witness :
    successStepSpec "db" ⟨false, 2, some "boom", none⟩ ⟨true, none⟩ 5
    ∧ failureStepSpec "db" ⟨true, 0, none, none⟩ ⟨false, some "boom"⟩ 5
    ∧ probeRunScenario :=
  C2_probe_state_machine "db" ⟨false, 2, some "boom", none⟩ ⟨true, none⟩ 5 rfl
    ⟨true, 0, none, none⟩ ⟨false, some "boom"⟩ rfl

end HealthProbeManager

/-! ## Claims about the metric aggregator -/

namespace MetricAggregator

/-- An empty window makes `aggregateAndAlert` a no-op: no alert, no
reset. -/
theorem aggregate_empty_no_op (th : Thresholds) (st : AggState)
    (h : st.responseTimes = []) :
    aggregateAndAlert th st = (st, []) := by
  unfold aggregateAndAlert
  rw [h]
  rfl

/-- A non-empty window always resets, and the emitted alerts are the
latency chain on the P95 of the sorted samples followed by the error-rate
chain on `errorCount / requestCount * 100`. -/
theorem aggregate_nonempty (th : Thresholds) (st : AggState)
    (h : st.responseTimes ≠ []) :
    (aggregateAndAlert th st).1 = emptyWindow
    ∧ (aggregateAndAlert th st).2
      = latencyAlerts th
          ((sortAsc st.responseTimes).getD (p95Index (sortAsc st.responseTimes).length) 0)
        ++ errorRateAlerts th ((st.errorCount : ℚ) / (st.requestCount : ℚ) * 100) := by
  have hne : st.responseTimes.isEmpty = false := by
    simpa [List.isEmpty_iff] using h
  unfold aggregateAndAlert
  rw [hne]
  exact ⟨rfl, rfl⟩

theorem latencySelectionSpec_holds (th : Thresholds) (q : ℚ) :
    latencySelectionSpec th q := by
  unfold latencySelectionSpec latencyAlerts
  refine ⟨?_, ?_, ?_⟩
  · intro hcrit
    rw [if_pos hcrit]
    rfl
  · intro hcrit hwarn
    rw [if_neg hcrit, if_pos hwarn]
    rfl
  · intro hcrit hwarn
    rw [if_neg hcrit, if_neg hwarn]

theorem errorRateSelectionSpec_holds (th : Thresholds) (q : ℚ) :
    errorRateSelectionSpec th q := by
  unfold errorRateSelectionSpec errorRateAlerts
  refine ⟨?_, ?_, ?_⟩
  · intro hcrit
    rw [if_pos hcrit]
    rfl
  · intro hcrit hwarn
    rw [if_neg hcrit, if_pos hwarn]
    rfl
  · intro hcrit hwarn
    rw [if_neg hcrit, if_neg hwarn]

theorem sortSpec_holds (l : List ℚ) : sortSpec l :=
  ⟨List.sorted_insertionSort (· ≤ ·) l, List.perm_insertionSort (· ≤ ·) l⟩

theorem latencyScenario_holds : latencyScenario := by
  refine ⟨by decide, ?_, (aggregate_nonempty defaultThresholds st20 (by decide)).1, rfl⟩
  rw [(aggregate_nonempty defaultThresholds st20 (by decide)).2]
  have hp : (sortAsc st20.responseTimes).getD (p95Index (sortAsc st20.responseTimes).length) 0
      = 600 := by decide
  have he1 : st20.errorCount = 0 := by decide
  have he2 : st20.requestCount = 20 := by decide
  have her : ((st20.errorCount : ℚ) / (st20.requestCount : ℚ) * 100) = 0 := by
    rw [he1, he2]
    norm_num
  rw [hp, her]
  have hlat : (latencyAlerts defaultThresholds 600).map (fun al => (al.severity, al.title))
      = [(Severity.CRITICAL, "Critical Latency (P95)")] := by
    unfold latencyAlerts
    rw [if_pos (by norm_num [defaultThresholds] : (600 : ℚ) > defaultThresholds.rtCritical)]
    rfl
  have herr : errorRateAlerts defaultThresholds 0 = [] := by
    unfold errorRateAlerts
    rw [if_neg (by norm_num [defaultThresholds]), if_neg (by norm_num [defaultThresholds])]
  rw [List.map_append, hlat, herr]
  rfl

theorem errorRateScenario_holds : errorRateScenario := by
  have he1 : st100.errorCount = 5 := by decide
  have he2 : st100.requestCount = 100 := by decide
  have her : ((st100.errorCount : ℚ) / (st100.requestCount : ℚ) * 100) = 5 := by
    rw [he1, he2]
    norm_num
  refine ⟨her, ?_⟩
  rw [(aggregate_nonempty defaultThresholds st100 (by decide)).2]
  have hp : (sortAsc st100.responseTimes).getD (p95Index (sortAsc st100.responseTimes).length) 0
      = 50 := by decide
  rw [hp, her]
  have hlat : latencyAlerts defaultThresholds 50 = [] := by
    unfold latencyAlerts
    rw [if_neg (by norm_num [defaultThresholds]), if_neg (by norm_num [defaultThresholds])]
  have herr : (errorRateAlerts defaultThresholds 5).map (fun al => (al.severity, al.title))
      = [(Severity.CRITICAL, "Critical Error Rate")] := by
    unfold errorRateAlerts
    rw [if_pos (by norm_num [defaultThresholds] : (5 : ℚ) > defaultThresholds.erCritical)]
    rfl
  rw [List.map_append, hlat, herr]
  rfl

/-- C3: an empty window is a no-op (no alert, no reset); a non-empty
window is evaluated with P95 the element at index `⌊count * 0.95⌋` of the
ascending-sorted samples (`sortAsc` being a genuine ascending sort) and is
then reset unconditionally; on the concrete 19×50ms/1×600ms window P95 is
600, exactly one CRITICAL latency alert fires, and the next cycle emits
nothing. -/
theorem C3_aggregation_cycle (th : Thresholds) (stE stN : AggState) (l : List ℚ)
    (hE : stE.responseTimes = []) (hN : stN.responseTimes ≠ []) :
    aggregateAndAlert th stE = (stE, [])
    ∧ (aggregateAndAlert th stN).1 = emptyWindow
    ∧ (aggregateAndAlert th stN).2
      = latencyAlerts th
          ((sortAsc stN.responseTimes).getD (p95Index (sortAsc stN.responseTimes).length) 0)
        ++ errorRateAlerts th ((stN.errorCount : ℚ) / (stN.requestCount : ℚ) * 100)
    ∧ sortSpec l
    ∧ latencyScenario :=
  ⟨aggregate_empty_no_op th stE hE, (aggregate_nonempty th stN hN).1,
    (aggregate_nonempty th stN hN).2, sortSpec_holds l, latencyScenario_holds⟩

/-- Witness for C3 at the empty window and the concrete 20-sample
window. -/
theorem C3_aggregation_cycle_witness :
    (emptyWindow.responseTimes = [] ∧ st20.responseTimes ≠ [])
    ∧ aggregateAndAlert defaultThresholds emptyWindow = (emptyWindow, [])
    ∧ (aggregateAndAlert defaultThresholds st20).1 = emptyWindow
    ∧ (aggregateAndAlert defaultThresholds st20).2
      = latencyAlerts defaultThresholds
          ((sortAsc st20.responseTimes).getD (p95Index (sortAsc st20.responseTimes).length) 0)
        ++ errorRateAlerts defaultThresholds
            ((st20.errorCount : ℚ) / (st20.requestCount : ℚ) * 100)
    ∧ sortSpec [600, 50]
    ∧ latencyScenario :=
  ⟨⟨rfl, by decide⟩,
    C3_aggregation_cycle defaultThresholds emptyWindow st20 [600, 50] rfl (by decide)⟩

/-- C4: on a non-empty window the error rate is
`errorCount / requestCount * 100` and the latency and error-rate chains
are evaluated independently (their alerts concatenate, so up to two can
fire), each choosing CRITICAL above the critical threshold and otherwise
WARNING above the warning threshold; on the concrete 100-sample window
with 5 errors the rate is 5% and one CRITICAL error-rate alert fires. -/
theorem C4_error_rate_independent (th : Thresholds) (st : AggState) (q q' : ℚ)
    (h : st.responseTimes ≠ []) :
    (aggregateAndAlert th st).2
      = latencyAlerts th
          ((sortAsc st.responseTimes).getD (p95Index (sortAsc st.responseTimes).length) 0)
        ++ errorRateAlerts th ((st.errorCount : ℚ) / (st.requestCount : ℚ) * 100)
    ∧ latencySelectionSpec th q
    ∧ errorRateSelectionSpec th q'
    ∧ (latencyAlerts th q).length ≤ 1
    ∧ (errorRateAlerts th q').length ≤ 1
    ∧ errorRateScenario := by
  refine ⟨(aggregate_nonempty th st h).2, latencySelectionSpec_holds th q,
    errorRateSelectionSpec_holds th q', ?_, ?_, errorRateScenario_holds⟩
  · unfold latencyAlerts
    split
    · simp
    · split <;> simp
  · unfold errorRateAlerts
    split
    · simp
    · split <;> simp

/-- Witness for C4 at the concrete 100-sample window with 5 errors. -/
theorem C4_error_rate_independent_witness :
    st100.responseTimes ≠ []
    ∧ ((aggregateAndAlert defaultThresholds st100).2
      = latencyAlerts defaultThresholds
          ((sortAsc st100.responseTimes).getD (p95Index (sortAsc st100.responseTimes).length) 0)
        ++ errorRateAlerts defaultThresholds
            ((st100.errorCount : ℚ) / (st100.requestCount : ℚ) * 100)
    ∧ latencySelectionSpec defaultThresholds 600
    ∧ errorRateSelectionSpec defaultThresholds 5
    ∧ (latencyAlerts defaultThresholds 600).length ≤ 1
    ∧ (errorRateAlerts defaultThresholds 5).length ≤ 1
    ∧ errorRateScenario) :=
  ⟨by decide, C4_error_rate_independent defaultThresholds st100 600 5 (by decide)⟩

end MetricAggregator

/-! ## Claims about the plugin chain -/

namespace PluginManager

/-- C5: `processAlert` threads the alert through the `onAlert` hooks in
registration order (the head plugin's output is the input of the tail),
then runs the `onBeforeNotify` gates in the same order on the phase-1
result; a chain of two title-suffixing plugins rewrites "Test" to
"Test-p1-p2". -/
theorem C5_plugin_chain_order (ps ps' : List Plugin) (p p1 p2 : Plugin)
    (f f1 f2 : IAlert → Option IAlert) (g : IAlert → Bool) (a a' a1 a2 : IAlert)
    (hpf : p.onAlert = some f) (hfa : f a = some a')
    (hpg : p.onBeforeNotify = some g)
    (h1 : p1.onAlert = some f1) (h2 : p2.onAlert = some f2)
    (hf1 : f1 a = some a1) (hf2 : f2 a1 = some a2)
    (hb1 : p1.onBeforeNotify = none) (hb2 : p2.onBeforeNotify = none) :
    runOnAlert (p :: ps) a = runOnAlert ps a'
    ∧ runBeforeNotify (p :: ps') a = (g a && runBeforeNotify ps' a)
    ∧ processAlert [p1, p2] a = some a2
    ∧ suffixScenario := by
  refine ⟨?_, ?_, ?_, ?_⟩
  · simp [runOnAlert, hpf, hfa]
  · simp only [runBeforeNotify, hpg]
    cases hga : g a <;> simp [hga]
  · simp [processAlert, runOnAlert, runBeforeNotify, h1, h2, hf1, hf2, hb1, hb2]
  · rfl

/-- Witness for C5: the two suffix plugins on the title "Test", with a
third plugin carrying a trivial gate for the phase-2 conjunct. -/
theorem C5_plugin_chain_order_witness :
    runOnAlert [fullPlugin "p" "-p" true] testAlert
        = runOnAlert [] { testAlert with title := "Test-p" }
    ∧ runBeforeNotify [fullPlugin "p" "-p" true] testAlert
        = (true && runBeforeNotify [] testAlert)
    ∧ processAlert [suffixPlugin "p1" "-p1", suffixPlugin "p2" "-p2"] testAlert
        = some { testAlert with title := "Test-p1-p2" }
    ∧ suffixScenario := by
  have h := C5_plugin_chain_order [] [] (fullPlugin "p" "-p" true)
    (suffixPlugin "p1" "-p1") (suffixPlugin "p2" "-p2")
    (fun al => some { al with title := al.title ++ "-p" })
    (fun al => some { al with title := al.title ++ "-p1" })
    (fun al => some { al with title := al.title ++ "-p2" })
    (fun _ => true) testAlert { testAlert with title := "Test-p" }
    { testAlert with title := "Test-p1" } { testAlert with title := "Test-p1-p2" }
    rfl rfl rfl rfl rfl rfl rfl rfl rfl
  exact h

end PluginManager

/-! ## Orchestrator reduction lemmas -/

namespace AIMonitor

open AlertDeduplicator PluginManager

theorem alert_disabled (m : MonitorState) (a : IAlert) (now : Int)
    (h : m.enabled = false) :
    alert m a now = (m, [], [.disabled]) := by
  unfold alert
  rw [h]
  rfl

theorem alert_no_dedup (m : MonitorState) (a : IAlert) (now : Int)
    (hen : m.enabled = true) (hd : m.dedup = none) :
    alert m a now = (m, alertAfterDedup m a now) := by
  unfold alert
  rw [hen, hd]
  rfl

theorem alert_dedup_suppressed (m : MonitorState) (a : IAlert) (now : Int) (d : DedupState)
    (hen : m.enabled = true) (hd : m.dedup = some d)
    (hs : (shouldSend d a now).1 = false) :
    alert m a now
      = ({ m with dedup := some (shouldSend d a now).2 }, [],
          [.deduplicated a.severity a.title]) := by
  unfold alert
  rw [hen, hd]
  simp [hs]

theorem alert_dedup_passed (m : MonitorState) (a : IAlert) (now : Int) (d : DedupState)
    (hen : m.enabled = true) (hd : m.dedup = some d)
    (hs : (shouldSend d a now).1 = true) :
    alert m a now
      = ({ m with dedup := some (shouldSend d a now).2 },
          alertAfterDedup { m with dedup := some (shouldSend d a now).2 } a now) := by
  unfold alert
  rw [hen, hd]
  simp [hs]

theorem alertAfterDedup_update_dedup (m : MonitorState) (x : Option DedupState)
    (a : IAlert) (now : Int) :
    alertAfterDedup { m with dedup := x } a now = alertAfterDedup m a now := rfl

theorem alertAfterDedup_suppressed (m : MonitorState) (a : IAlert) (now : Int)
    (hp : processAlert m.plugins (enrichStage m.enrich (stampTime a now)).1 = none) :
    alertAfterDedup m a now
      = ([], (enrichStage m.enrich (stampTime a now)).2
          ++ [.suppressedByPlugin a.severity a.title]) := by
  unfold alertAfterDedup
  rw [hp]

theorem alertAfterDedup_delivered (m : MonitorState) (a processed : IAlert) (now : Int)
    (hp : processAlert m.plugins (enrichStage m.enrich (stampTime a now)).1 = some processed) :
    alertAfterDedup m a now
      = ((notifyAll m.notifiers
            (withFallbackTimestamp processed
              (enrichStage m.enrich (stampTime a now)).1.timestamp)).1,
          (enrichStage m.enrich (stampTime a now)).2
            ++ (notifyAll m.notifiers
                (withFallbackTimestamp processed
                  (enrichStage m.enrich (stampTime a now)).1.timestamp)).2) := by
  unfold alertAfterDedup
  rw [hp]

theorem processAlert_nil (x : IAlert) : processAlert [] x = some x := by
  simp [processAlert, runOnAlert, runBeforeNotify]

theorem notifyAll_calls (ns : List Notifier) (b : IAlert) :
    (notifyAll ns b).1 = ns.map (fun n => (n.name, n.send b)) := by
  unfold notifyAll
  cases ns <;> simp

theorem withFallbackTimestamp_self (x : IAlert) :
    withFallbackTimestamp x x.timestamp = x := by
  obtain ⟨s, t, msg, mets, ts⟩ := x
  cases ts <;> rfl

end AIMonitor

/-! ## Claims about the orchestrator -/

namespace AIMonitor

open AlertDeduplicator PluginManager

/-- C6: on an enabled monitor, a dedup-suppressed alert and a
plugin-suppressed alert both produce no notifier call (`alert` returning
its value normally, the embedding being total); an `onAlert` hook that
returns the null sentinel ends the phase-1 iteration, the hooks of the
remaining plugins never being consulted. -/
theorem C6_suppression_reaches_no_notifier (m : MonitorState) (a : IAlert) (now : Int)
    (hen : m.enabled = true) :
    dedupSuppressionSpec m a now ∧ pluginSuppressionSpec m a now
    ∧ onAlertShortCircuitSpec := by
  refine ⟨?_, ?_, ?_⟩
  · intro d hd hs
    rw [alert_dedup_suppressed m a now d hen hd hs]
    exact ⟨rfl, rfl⟩
  · intro hp
    cases hd : m.dedup with
    | none =>
      rw [alert_no_dedup m a now hen hd, alertAfterDedup_suppressed m a now hp]
    | some d =>
      cases hs : (shouldSend d a now).1 with
      | false =>
        rw [alert_dedup_suppressed m a now d hen hd hs]
      | true =>
        rw [alert_dedup_passed m a now d hen hd hs]
        rw [show ({ m with dedup := some (shouldSend d a now).2 } : MonitorState)
              = { m with dedup := some (shouldSend d a now).2 } from rfl]
        rw [alertAfterDedup_update_dedup m (some (shouldSend d a now).2) a now,
          alertAfterDedup_suppressed m a now hp]
  · intro p f ps ps' x hpf hfx
    constructor
    · simp [runOnAlert, hpf, hfx]
    · simp [runOnAlert, hpf, hfx]

/-- Witness for C6: an enabled monitor with a deduplicator, a
null-sentinel plugin and one notifier. -/
theorem C6_suppression_reaches_no_notifier_witness :
    (MonitorState.mk true (some (init 1000)) none [nullPlugin "mute"] [okNotifier]).enabled
        = true
    ∧ dedupSuppressionSpec
        (MonitorState.mk true (some (init 1000)) none [nullPlugin "mute"] [okNotifier])
        testAlert 0
    ∧ pluginSuppressionSpec
        (MonitorState.mk true (some (init 1000)) none [nullPlugin "mute"] [okNotifier])
        testAlert 0
    ∧ onAlertShortCircuitSpec :=
  ⟨rfl, C6_suppression_reaches_no_notifier
    (MonitorState.mk true (some (init 1000)) none [nullPlugin "mute"] [okNotifier])
    testAlert 0 rfl⟩

/-- C7: on an enabled monitor without dedup gate whose plugin phase passes
the alert through, `alert` makes exactly one call per configured notifier,
in order; `notifyAll` hands every notifier its own `sendAlert` outcome
(one notifier's rejection leaving the others' calls in place), logs a
warning when no notifier is configured, and logs each rejection by index;
the embedding being total, `alert` returns its value normally whatever the
notifiers do. -/
theorem C7_notifier_fanout_settles (m : MonitorState) (a processed : IAlert) (now : Int)
    (hen : m.enabled = true) (hd : m.dedup = none)
    (hp : processAlert m.plugins (enrichStage m.enrich (stampTime a now)).1 = some processed) :
    notifierFanoutSpec m a now
    ∧ (∀ (ns : List Notifier) (b : IAlert),
        (notifyAll ns b).1 = ns.map (fun n => (n.name, n.send b)))
    ∧ (∀ b : IAlert, (notifyAll ([] : List Notifier) b).2 = [.noNotifiers])
    ∧ (∀ (ns : List Notifier) (b : IAlert) (i : Nat) (n : Notifier) (e : String),
        ns[i]? = some n → n.send b = .error e →
        LogEvent.notifierFailed i e ∈ (notifyAll ns b).2) := by
  refine ⟨?_, notifyAll_calls, fun b => rfl, ?_⟩
  · unfold notifierFanoutSpec
    rw [alert_no_dedup m a now hen hd, alertAfterDedup_delivered m a processed now hp]
    rw [notifyAll_calls]
    simp
  · intro ns b i n e hi hsend
    have hne : ns.isEmpty = false := by
      cases ns with
      | nil => simp at hi
      | cons x xs => rfl
    unfold notifyAll
    rw [hne]
    simp only [Bool.false_eq_true, if_false, List.mem_filterMap]
    refine ⟨(i, (n.name, n.send b)), ?_, ?_⟩
    · apply List.mk_mem_enum_iff_getElem?.mpr
      rw [List.getElem?_map, hi]
      rfl
    · rw [hsend]

/-- Witness for C7: a monitor with a rejecting and a resolving notifier
and no plugin. -/
theorem C7_notifier_fanout_settles_witness :
    (MonitorState.mk true none none [] [failNotifier, okNotifier]).enabled = true
    ∧ processAlert (MonitorState.mk true none none [] [failNotifier, okNotifier]).plugins
        (enrichStage (MonitorState.mk true none none [] [failNotifier, okNotifier]).enrich
          (stampTime testAlert 0)).1 = some (stampTime testAlert 0)
    ∧ notifierFanoutSpec (MonitorState.mk true none none [] [failNotifier, okNotifier])
        testAlert 0
    ∧ (∀ b : IAlert, (notifyAll ([] : List Notifier) b).2 = [.noNotifiers]) :=
  ⟨rfl, rfl,
    (C7_notifier_fanout_settles (MonitorState.mk true none none [] [failNotifier, okNotifier])
      testAlert (stampTime testAlert 0) 0 rfl rfl rfl).1,
    (C7_notifier_fanout_settles (MonitorState.mk true none none [] [failNotifier, okNotifier])
      testAlert (stampTime testAlert 0) 0 rfl rfl rfl).2.2.1⟩

end AIMonitor

namespace AIMonitor

open AlertDeduplicator PluginManager

/-- C9: with an enrichment provider configured, a successful analysis is
appended to the message and stored under `metrics.aiAnalysis`, and (with
no plugin rewriting it) that enriched alert is exactly what every notifier
receives; a failing analysis is caught and logged and the pipeline runs
exactly as if no provider were configured — plugins still run, the same
notifier calls are made, and `alert` returns normally. -/
theorem C9_enrichment_pipeline (m : MonitorState) (a : IAlert) (now : Int)
    (f : IAlert → Except String Analysis) (an : Analysis) (e : String)
    (hen : m.enabled = true) (hd : m.dedup = none) (hf : m.enrich = some f) :
    (f (stampTime a now) = .ok an → enrichSuccessSpec m a now an)
    ∧ (f (stampTime a now) = .error e → enrichFailureSpec m a now e) := by
  constructor
  · intro hok
    have hstage : enrichStage m.enrich (stampTime a now)
        = ({ stampTime a now with
              message := (stampTime a now).message ++ enrichmentBlock an
              metrics := some (setAssoc ((stampTime a now).metrics.getD [])
                "aiAnalysis" (.analysis an)) }, []) := by
      simp [enrichStage, hf, hok]
    unfold enrichSuccessSpec
    rw [hstage]
    refine ⟨rfl, getAssoc_setAssoc_self _ _ _, ?_⟩
    intro hplug
    have hpr : processAlert m.plugins (enrichStage m.enrich (stampTime a now)).1
        = some (enrichStage m.enrich (stampTime a now)).1 := by
      rw [hplug]
      exact processAlert_nil _
    rw [alert_no_dedup m a now hen hd, alertAfterDedup_delivered m a _ now hpr]
    rw [withFallbackTimestamp_self, notifyAll_calls, hstage]
  · intro herr
    have hstage : enrichStage m.enrich (stampTime a now)
        = (stampTime a now, [.enrichFailed e]) := by
      simp [enrichStage, hf, herr]
    unfold enrichFailureSpec
    rw [alert_no_dedup m a now hen hd,
      alert_no_dedup { m with enrich := none } a now hen hd]
    cases hpa : processAlert m.plugins (stampTime a now) with
    | none =>
      rw [alertAfterDedup_suppressed m a now (by rw [hstage]; exact hpa),
        alertAfterDedup_suppressed { m with enrich := none } a now hpa]
      rw [hstage]
      exact ⟨rfl, rfl, rfl⟩
    | some pr =>
      rw [alertAfterDedup_delivered m a pr now (by rw [hstage]; exact hpa),
        alertAfterDedup_delivered { m with enrich := none } a pr now hpa]
      rw [hstage]
      exact ⟨rfl, rfl, rfl⟩

/-- Witness for C9 at a monitor whose provider is instantiated once as
succeeding and once (a second monitor) as failing, on the test alert. -/
theorem C9_enrichment_pipeline_witness :
    ((fun _ => Except.ok ⟨"sum", none, [], none⟩ :
        IAlert → Except String Analysis) (stampTime testAlert 0)
      = .ok (⟨"sum", none, [], none⟩ : Analysis))
    ∧ enrichSuccessSpec
        (MonitorState.mk true none
          (some (fun _ => Except.ok ⟨"sum", none, [], none⟩)) [] [okNotifier])
        testAlert 0 ⟨"sum", none, [], none⟩
    ∧ ((fun _ => Except.error "down" :
        IAlert → Except String Analysis) (stampTime testAlert 0) = .error "down")
    ∧ enrichFailureSpec
        (MonitorState.mk true none
          (some (fun _ => Except.error "down")) [] [okNotifier])
        testAlert 0 "down" :=
  ⟨rfl,
    (C9_enrichment_pipeline
      (MonitorState.mk true none
        (some (fun _ => Except.ok ⟨"sum", none, [], none⟩)) [] [okNotifier])
      testAlert 0 (fun _ => Except.ok ⟨"sum", none, [], none⟩)
      ⟨"sum", none, [], none⟩ "unused" rfl rfl rfl).1 rfl,
    rfl,
    (C9_enrichment_pipeline
      (MonitorState.mk true none
        (some (fun _ => Except.error "down")) [] [okNotifier])
      testAlert 0 (fun _ => Except.error "down")
      ⟨"sum", none, [], none⟩ "down" rfl rfl rfl).2 rfl⟩

/-- C10: a disabled monitor's `alert` returns immediately: the state
(including the deduplicator's entries) is unchanged, no notifier is
called, no plugin or dedup log event is produced — only the disabled
debug line. -/
theorem C10_disabled_is_no_op (m : MonitorState) (a : IAlert) (now : Int)
    (h : m.enabled = false) :
    alert m a now = (m, [], [LogEvent.disabled])
    ∧ (alert m a now).1.dedup = m.dedup := by
  have hall := alert_disabled m a now h
  exact ⟨hall, by rw [hall]⟩

/-- Witness for C10 at a disabled monitor that carries a deduplicator, a
plugin and a notifier. -/
theorem C10_disabled_is_no_op_witness :
    (MonitorState.mk false (some (init 1000)) none [nullPlugin "mute"] [okNotifier]).enabled
        = false
    ∧ alert (MonitorState.mk false (some (init 1000)) none [nullPlugin "mute"] [okNotifier])
        testAlert 0
      = (MonitorState.mk false (some (init 1000)) none [nullPlugin "mute"] [okNotifier],
          [], [LogEvent.disabled])
    ∧ (alert (MonitorState.mk false (some (init 1000)) none [nullPlugin "mute"] [okNotifier])
        testAlert 0).1.dedup = some (init 1000) :=
  ⟨rfl,
    (C10_disabled_is_no_op
      (MonitorState.mk false (some (init 1000)) none [nullPlugin "mute"] [okNotifier])
      testAlert 0 rfl).1,
    (C10_disabled_is_no_op
      (MonitorState.mk false (some (init 1000)) none [nullPlugin "mute"] [okNotifier])
      testAlert 0 rfl).2⟩

end AIMonitor
